import Mathlib

/-!
Shallow embedding of the vultr-cli object-storage command group
(src/cmd/objectstorage/objectstorage.go).

The file models the nine cobra subcommands (`list`, `get`, `create`, `label`,
`delete`, `regenerate-keys`, `list-clusters`, `list-cluster-tiers`,
`list-tiers`), their flag registrations, argument validators and RunE bodies,
together with the cobra execution order for a subcommand:

  parse flags (unknown flag rejected)
  → Args validator
  → PersistentPreRunE (authentication check, objectstorage.go lines 25-31)
  → required-flag validation
  → RunE.

The remote govultr client is modelled as a record of response functions; an
execution returns both the surfaced result and the list of outbound API calls
that were issued, so call-count and pass-through properties can be stated.
-/

namespace VultrOS

/-- govultr `ObjectStorage` response value: identifier, label, cluster
membership, tier, status, S3 endpoint and credentials.  The command group only
passes values of this shape through to the printer. -/
structure ObjectStorage where
  ID : String
  Label : String
  ClusterID : Int
  TierID : Int
  Status : String
  S3Hostname : String
  S3AccessKey : String
  S3SecretKey : String
deriving DecidableEq, Repr

/-- govultr `Meta` pagination metadata returned by the list calls. -/
structure Meta where
  Total : Int
  LinksNext : String
  LinksPrev : String
deriving DecidableEq, Repr

/-- govultr `S3Keys` credential pair returned by the regenerate call. -/
structure S3Keys where
  S3AccessKey : String
  S3SecretKey : String
deriving DecidableEq, Repr

/-- govultr `ObjectStorageCluster` descriptive record. -/
structure ObjectStorageCluster where
  ID : Int
  Region : String
  Hostname : String
  Deploy : String
deriving DecidableEq, Repr

/-- govultr `ObjectStorageTier` descriptive record. -/
structure ObjectStorageTier where
  ID : Int
  Price : Int
  RatelimitOpsSecs : Int
deriving DecidableEq, Repr

/-- govultr `ObjectStorageReq`, the request value built locally from flags for
create and update (objectstorage.go lines 315-331).  In Go the fields are an
int, an int and a string; a field the code does not assign keeps the zero
value (0 or ""), which the client omits from the wire. -/
structure ObjectStorageReq where
  ClusterID : Int
  TierID : Int
  Label : String
deriving DecidableEq, Repr

/-- govultr `ListOptions` as populated by the paging helper: a cursor and a
per-page count (the only two fields the command group ever sets). -/
structure ListOptions where
  Cursor : String
  PerPage : Int
deriving DecidableEq, Repr

/-- The nine subcommands of the object-storage command group. -/
inductive Subcommand where
  | list
  | get
  | create
  | label
  | delete
  | regenerateKeys
  | listClusters
  | listClusterTiers
  | listTiers
deriving DecidableEq, Repr

/-- The five flags registered by subcommands of the group:
`--cursor`/`-c` and `--per-page`/`-p` on list (lines 54-63),
`--label`/`-l`, `--cluster-id`/`-i` and `--tier-id`/`-t` on create
(lines 126-128), `--label`/`-l` on label (line 161). -/
inductive FlagName where
  | cursor
  | perPage
  | label
  | clusterId
  | tierId
deriving DecidableEq, Repr

/-- The command-line spelling of each flag, as cobra reports it. -/
def flagText : FlagName → String
  | .cursor => "cursor"
  | .perPage => "per-page"
  | .label => "label"
  | .clusterId => "cluster-id"
  | .tierId => "tier-id"

/-- Which subcommand registers which flag (objectstorage.go lines 54-63,
126-128, 161).  No other subcommand registers any flag, and the parent
command registers no persistent flags. -/
def flagSupported (sub : Subcommand) (f : FlagName) : Bool :=
  match sub, f with
  | .list, .cursor => true
  | .list, .perPage => true
  | .create, .label => true
  | .create, .clusterId => true
  | .create, .tierId => true
  | .label, .label => true
  | _, _ => false

/-- One invocation of a subcommand: the positional arguments left after flag
parsing, whether the external session carries authentication
(`o.Base.HasAuth`), and for each flag either `some v` (the user set it on the
command line) or `none` (not set, so the registered default applies). -/
structure Invocation where
  args : List String := []
  hasAuth : Bool := true
  cursorFlag : Option String := none
  perPageFlag : Option Int := none
  labelFlag : Option String := none
  clusterIdFlag : Option Int := none
  tierIdFlag : Option Int := none
deriving Repr

/-- The flags the user set on the command line, in the fixed order used to
report the first unknown one. -/
def provided (inv : Invocation) : List FlagName :=
  (if inv.cursorFlag.isSome then [FlagName.cursor] else []) ++
    (if inv.perPageFlag.isSome then [FlagName.perPage] else []) ++
    (if inv.labelFlag.isSome then [FlagName.label] else []) ++
    (if inv.clusterIdFlag.isSome then [FlagName.clusterId] else []) ++
    (if inv.tierIdFlag.isSome then [FlagName.tierId] else [])

/-- Cobra flag parsing: a set flag the subcommand did not register is rejected
with an unknown-flag error before anything else runs. -/
def flagParseError (sub : Subcommand) (inv : Invocation) : Option String :=
  match (provided inv).find? (fun f => !flagSupported sub f) with
  | some f => some ("unknown flag: --" ++ flagText f)
  | none => none

/-- The Args validators (objectstorage.go lines 70-75, 139-144, 173-178,
194-199, 238-243): get, label, delete and regenerate-keys demand at least one
positional argument with the message "please provide an object storage ID";
list-cluster-tiers demands one with "please provide a Cluster ID".  The other
subcommands set no Args validator. -/
def argsError (sub : Subcommand) (args : List String) : Option String :=
  match sub with
  | .get => if args.length < 1 then some "please provide an object storage ID" else none
  | .label => if args.length < 1 then some "please provide an object storage ID" else none
  | .delete => if args.length < 1 then some "please provide an object storage ID" else none
  | .regenerateKeys => if args.length < 1 then some "please provide an object storage ID" else none
  | .listClusterTiers => if args.length < 1 then some "please provide a Cluster ID" else none
  | _ => none

/-- Cobra required-flag validation: create marks `cluster-id` required
(line 129), label marks `label` required (line 162).  A required flag the
user did not set yields cobra's fixed message. -/
def requiredFlagError (sub : Subcommand) (inv : Invocation) : Option String :=
  match sub with
  | .create =>
      if inv.clusterIdFlag.isNone then some "required flag(s) \"cluster-id\" not set" else none
  | .label =>
      if inv.labelFlag.isNone then some "required flag(s) \"label\" not set" else none
  | _ => none

/-- Modelled from the spec: the fixed API-key error (`utils.APIKeyError`,
cmd/utils, not under src/) returned by the PersistentPreRunE authentication
check; the spec only says it is a fixed message, so the concrete text here is
a stand-in. -/
def APIKeyError : String := "please provide an API key"

/-- Modelled from the spec: the externally defined per-page default
(`utils.PerPageDefault`, cmd/utils, not under src/); the spec says only
"default defined externally", so the value is a stand-in and no claim
depends on it. -/
def PerPageDefault : Int := 100

/-- Modelled from the spec: `utils.GetPaging` (cmd/utils, not under src/)
reads the cursor and per-page flags into the list options.  On the list
subcommand the registered flag defaults are "" and `PerPageDefault`
(lines 54-63); `listOpts` is the resulting options value. -/
def listOpts (inv : Invocation) : ListOptions :=
  { Cursor := inv.cursorFlag.getD "", PerPage := inv.perPageFlag.getD PerPageDefault }

/-- Modelled from the spec: on subcommands that register no paging flags,
`utils.GetPaging` finds neither flag and leaves the options at their zero
values. -/
def emptyOpts : ListOptions := { Cursor := "", PerPage := 0 }

/-- Go `strconv.Atoi` (used at objectstorage.go line 245), digit
accumulation: the value of a run of decimal digits. -/
def digitsVal (ds : List Char) : Nat :=
  ds.foldl (fun acc c => acc * 10 + (c.toNat - 48)) 0

/-- Go `strconv.Atoi`, the full parse: an optional sign followed by at least
one decimal digit, anything else rejected with the invalid-syntax error, and
a result outside the 64-bit int range (Atoi is ParseInt with bitSize 0,
i.e. the platform int, 64-bit where the CLI runs) rejected with the
value-out-of-range error. -/
def atoi (s : String) : Except String Int :=
  let bad : Except String Int :=
    Except.error ("strconv.Atoi: parsing \"" ++ s ++ "\": invalid syntax")
  let outOfRange : Except String Int :=
    Except.error ("strconv.Atoi: parsing \"" ++ s ++ "\": value out of range")
  match s.data with
  | [] => bad
  | c :: rest =>
    let signed : Bool × List Char :=
      if c = '-' then (true, rest)
      else if c = '+' then (false, rest)
      else (false, c :: rest)
    if signed.2 = [] then bad
    else if signed.2.all Char.isDigit then
      let v : Int :=
        if signed.1 then -(Int.ofNat (digitsVal signed.2)) else Int.ofNat (digitsVal signed.2)
      if v < -(2 ^ 63) ∨ 2 ^ 63 - 1 < v then outOfRange
      else Except.ok v
    else bad

/-- One outbound call to the govultr object-storage client, with the
arguments the command group passed (objectstorage.go lines 305-355). -/
inductive ApiCall where
  | list (opts : ListOptions)
  | get (id : String)
  | create (req : ObjectStorageReq)
  | update (id : String) (req : ObjectStorageReq)
  | delete (id : String)
  | listCluster (opts : ListOptions)
  | listTiers
  | listClusterTiers (clusterID : Int)
  | regenerateKeys (id : String)
deriving DecidableEq, Repr

/-- The remote govultr client, modelled as the responses it returns for each
operation.  Errors are their messages, as formatted by Go's %v verb. -/
structure Client where
  listResp : ListOptions → Except String (List ObjectStorage × Meta)
  getResp : String → Except String ObjectStorage
  createResp : ObjectStorageReq → Except String ObjectStorage
  updateResp : String → ObjectStorageReq → Except String Unit
  deleteResp : String → Except String Unit
  listClusterResp : ListOptions → Except String (List ObjectStorageCluster × Meta)
  listTiersResp : Except String (List ObjectStorageTier)
  listClusterTiersResp : Int → Except String (List ObjectStorageTier)
  regenerateKeysResp : String → Except String S3Keys

/-- What a successful invocation hands to the external printer: one of the
printer data shapes built in the RunE bodies. -/
inductive Output where
  | objectStorages (oss : List ObjectStorage) (meta : Meta)
  | objectStorage (os : ObjectStorage)
  | keys (k : S3Keys)
  | clusters (cs : List ObjectStorageCluster) (meta : Meta)
  | tiers (ts : List ObjectStorageTier)
  | clusterTiers (ts : List ObjectStorageTier)
  | info (msg : String)
deriving DecidableEq, Repr

/-- The observable outcome of one invocation: the surfaced result (printer
data on success, error message on failure) and the outbound API calls issued,
in order. -/
structure ExecResult where
  out : Except String Output
  calls : List ApiCall
deriving Repr

/-- The RunE bodies (objectstorage.go lines 39-51, 76-87, 94-124, 145-158,
179-187, 200-211, 218-231, 244-262, 268-281) together with the options
methods they call (lines 305-355).  Each body issues its single client call
and either wraps the error with the fixed fmt.Errorf prefix or hands the
result to the printer; list-cluster-tiers first parses its positional
argument with strconv.Atoi and fails locally when that fails. -/
def runE (client : Client) (sub : Subcommand) (inv : Invocation) : ExecResult :=
  match sub with
  | .list =>
    let opts := listOpts inv
    match client.listResp opts with
    | .error e => ⟨.error ("error retrieving object storage list : " ++ e), [.list opts]⟩
    | .ok res => ⟨.ok (.objectStorages res.1 res.2), [.list opts]⟩
  | .get =>
    let id := inv.args.headD ""
    match client.getResp id with
    | .error e => ⟨.error ("error getting object storage info : " ++ e), [.get id]⟩
    | .ok os => ⟨.ok (.objectStorage os), [.get id]⟩
  | .create =>
    let req : ObjectStorageReq :=
      { ClusterID := inv.clusterIdFlag.getD 0
        TierID := inv.tierIdFlag.getD 1
        Label := inv.labelFlag.getD "" }
    match client.createResp req with
    | .error e => ⟨.error ("error creating object storage : " ++ e), [.create req]⟩
    | .ok os => ⟨.ok (.objectStorage os), [.create req]⟩
  | .label =>
    let id := inv.args.headD ""
    let req : ObjectStorageReq := { ClusterID := 0, TierID := 0, Label := inv.labelFlag.getD "" }
    match client.updateResp id req with
    | .error e => ⟨.error ("error updating object storage label : " ++ e), [.update id req]⟩
    | .ok _ => ⟨.ok (.info "object storage label has been set"), [.update id req]⟩
  | .delete =>
    let id := inv.args.headD ""
    match client.deleteResp id with
    | .error e => ⟨.error ("unable to delete object storage : " ++ e), [.delete id]⟩
    | .ok _ => ⟨.ok (.info "object storage has been deleted"), [.delete id]⟩
  | .regenerateKeys =>
    let id := inv.args.headD ""
    match client.regenerateKeysResp id with
    | .error e => ⟨.error ("unable to regenerate keys for object storage : " ++ e), [.regenerateKeys id]⟩
    | .ok k => ⟨.ok (.keys k), [.regenerateKeys id]⟩
  | .listClusters =>
    match client.listClusterResp emptyOpts with
    | .error e => ⟨.error ("error retrieving object storage cluster list : " ++ e), [.listCluster emptyOpts]⟩
    | .ok res => ⟨.ok (.clusters res.1 res.2), [.listCluster emptyOpts]⟩
  | .listClusterTiers =>
    match atoi (inv.args.headD "") with
    | .error e => ⟨.error ("invalid clusterID: " ++ e), []⟩
    | .ok cid =>
      match client.listClusterTiersResp cid with
      | .error e =>
        ⟨.error ("error retrieving object storage cluster tier list: " ++ e), [.listClusterTiers cid]⟩
      | .ok ts => ⟨.ok (.clusterTiers ts), [.listClusterTiers cid]⟩
  | .listTiers =>
    match client.listTiersResp with
    | .error e => ⟨.error ("error retrieving object storage tier list : " ++ e), [.listTiers]⟩
    | .ok ts => ⟨.ok (.tiers ts), [.listTiers]⟩

/-- One full invocation of a subcommand, in cobra's execution order: flag
parsing, then the Args validator, then PersistentPreRunE (the authentication
check of objectstorage.go lines 25-31), then required-flag validation, then
RunE.  Any failing stage returns its error with no API call issued. -/
def execute (client : Client) (sub : Subcommand) (inv : Invocation) : ExecResult :=
  match flagParseError sub inv with
  | some e => ⟨.error e, []⟩
  | none =>
    match argsError sub inv.args with
    | some e => ⟨.error e, []⟩
    | none =>
      if inv.hasAuth then
        match requiredFlagError sub inv with
        | some e => ⟨.error e, []⟩
        | none => runE client sub inv
      else ⟨.error APIKeyError, []⟩

/-- Boolean success test for an except value. -/
def exceptOk {α : Type} (x : Except String α) : Bool :=
  match x with
  | .ok _ => true
  | .error _ => false

/-- Local validation of an invocation, everything the command group checks
before letting a client call go out: flag parsing, the Args validator, the
authentication check, required flags, and for list-cluster-tiers the
strconv.Atoi parse of the positional argument. -/
def localOk (sub : Subcommand) (inv : Invocation) : Bool :=
  (flagParseError sub inv).isNone && (argsError sub inv.args).isNone && inv.hasAuth &&
    (requiredFlagError sub inv).isNone &&
    (match sub with
     | .listClusterTiers => exceptOk (atoi (inv.args.headD ""))
     | _ => true)

/-- The fixed human-readable text each subcommand prepends to a remote error
(the fmt.Errorf format strings of the RunE bodies). -/
def opErrorText : Subcommand → String
  | .list => "error retrieving object storage list : "
  | .get => "error getting object storage info : "
  | .create => "error creating object storage : "
  | .label => "error updating object storage label : "
  | .delete => "unable to delete object storage : "
  | .regenerateKeys => "unable to regenerate keys for object storage : "
  | .listClusters => "error retrieving object storage cluster list : "
  | .listClusterTiers => "error retrieving object storage cluster tier list: "
  | .listTiers => "error retrieving object storage tier list : "

/-- A sample object storage value for concrete executions. -/
def sampleOS : ObjectStorage :=
  { ID := "cb676a46-66fd-4dfb-b839-12345"
    Label := "demo"
    ClusterID := 2
    TierID := 1
    Status := "active"
    S3Hostname := "ewr1.vultrobjects.com"
    S3AccessKey := "AK"
    S3SecretKey := "SK" }

/-- Sample pagination metadata for concrete executions. -/
def sampleMeta : Meta := { Total := 1, LinksNext := "", LinksPrev := "" }

/-- A client whose every response succeeds with fixed sample data. -/
def okClient : Client :=
  { listResp := fun _ => .ok ([sampleOS], sampleMeta)
    getResp := fun _ => .ok sampleOS
    createResp := fun _ => .ok sampleOS
    updateResp := fun _ _ => .ok ()
    deleteResp := fun _ => .ok ()
    listClusterResp := fun _ => .ok ([], sampleMeta)
    listTiersResp := .ok []
    listClusterTiersResp := fun _ => .ok []
    regenerateKeysResp := fun _ => .ok { S3AccessKey := "A2", S3SecretKey := "S2" } }

/-- A client whose every response fails with the same message, used to state
how remote errors surface. -/
def errClient (e : String) : Client :=
  { listResp := fun _ => .error e
    getResp := fun _ => .error e
    createResp := fun _ => .error e
    updateResp := fun _ _ => .error e
    deleteResp := fun _ => .error e
    listClusterResp := fun _ => .error e
    listTiersResp := .error e
    listClusterTiersResp := fun _ => .error e
    regenerateKeysResp := fun _ => .error e }

/-- A successful except value is an `ok` of something. -/
theorem exceptOk_exists {α : Type} {x : Except String α} (h : exceptOk x = true) :
    ∃ a, x = .ok a := by
  cases x with
  | ok a => exact ⟨a, rfl⟩
  | error e => simp [exceptOk] at h

/-- Claim C1: with an authenticated session and no unknown flag, an invocation
that fails local validation — a missing positional ID on get, label, delete,
regenerate-keys or list-cluster-tiers, or an unset required flag (cluster-id
on create, label on label, the latter once the positional ID is present) —
returns the designated local validation error and issues zero remote calls. -/
theorem local_validation_fails_fast (client : Client) (sub : Subcommand) (inv : Invocation)
    (hAuth : inv.hasAuth = true) (hFlags : flagParseError sub inv = none) :
    ((sub = Subcommand.get ∨ sub = Subcommand.label ∨ sub = Subcommand.delete ∨
        sub = Subcommand.regenerateKeys) → inv.args = [] →
      execute client sub inv = ⟨.error "please provide an object storage ID", []⟩) ∧
    (sub = Subcommand.listClusterTiers → inv.args = [] →
      execute client sub inv = ⟨.error "please provide a Cluster ID", []⟩) ∧
    (sub = Subcommand.create → inv.clusterIdFlag = none →
      execute client sub inv = ⟨.error "required flag(s) \"cluster-id\" not set", []⟩) ∧
    (sub = Subcommand.label → inv.args ≠ [] → inv.labelFlag = none →
      execute client sub inv = ⟨.error "required flag(s) \"label\" not set", []⟩) := by
  refine ⟨?_, ?_, ?_, ?_⟩
  · rintro (rfl | rfl | rfl | rfl) hargs <;>
      simp [execute, hFlags, argsError, hargs, hAuth]
  · rintro rfl hargs
    simp [execute, hFlags, argsError, hargs, hAuth]
  · rintro rfl hcid
    simp [execute, hFlags, argsError, hAuth, requiredFlagError, hcid]
  · rintro rfl hargs hlab
    cases h : inv.args with
    | nil => exact absurd h hargs
    | cons a t => simp [execute, hFlags, argsError, h, hAuth, requiredFlagError, hlab]

/-- Witness for C1: `get` invoked with no arguments. -/
theorem local_validation_fails_fast_witness :
    execute okClient Subcommand.get { args := [], hasAuth := true } =
      ⟨.error "please provide an object storage ID", []⟩ :=
  (local_validation_fails_fast okClient Subcommand.get { args := [], hasAuth := true }
      rfl rfl).1 (Or.inl rfl) rfl

/-- Claim C2: a create invocation that omits the tier-id flag sends a request
whose TierID is the registered default 1. -/
theorem create_tier_defaults_to_one (client : Client) (inv : Invocation) (cid : Int)
    (hAuth : inv.hasAuth = true) (hFlags : flagParseError Subcommand.create inv = none)
    (hcid : inv.clusterIdFlag = some cid) (htier : inv.tierIdFlag = none) :
    (execute client Subcommand.create inv).calls =
      [ApiCall.create { ClusterID := cid, TierID := 1, Label := inv.labelFlag.getD "" }] := by
  simp only [execute, hFlags, argsError, hAuth, requiredFlagError, hcid, Option.isNone_some,
    Bool.false_eq_true, if_false, if_true, runE, htier, Option.getD_some, Option.getD_none]
  cases client.createResp { ClusterID := cid, TierID := 1, Label := inv.labelFlag.getD "" } <;>
    rfl

/-- Witness for C2: create with cluster-id 5, label "mybucket", tier-id
omitted. -/
theorem create_tier_defaults_to_one_witness :
    (execute okClient Subcommand.create
        { args := [], hasAuth := true, labelFlag := some "mybucket",
          clusterIdFlag := some 5 }).calls =
      [ApiCall.create { ClusterID := 5, TierID := 1, Label := "mybucket" }] :=
  create_tier_defaults_to_one okClient
    { args := [], hasAuth := true, labelFlag := some "mybucket", clusterIdFlag := some 5 }
    5 rfl rfl rfl rfl

/-- Claim C3: whenever local validation passes and the remote client fails
with message e, the surfaced error is e wrapped with the fixed
operation-specific text, for every subcommand; no error is swallowed. -/
theorem remote_error_wrapped (sub : Subcommand) (inv : Invocation) (e : String)
    (hOk : localOk sub inv = true) :
    (execute (errClient e) sub inv).out = .error (opErrorText sub ++ e) := by
  have hOk' := hOk
  simp only [localOk, Bool.and_eq_true, Option.isNone_iff_eq_none] at hOk'
  obtain ⟨⟨⟨⟨hf, ha⟩, hAuth⟩, hr⟩, hsub⟩ := hOk'
  cases sub with
  | listClusterTiers =>
    obtain ⟨n, hn⟩ := exceptOk_exists hsub
    rw [List.headD_eq_head?] at hn
    simp [execute, hf, ha, hAuth, hr, runE, hn, errClient, opErrorText]
  | list => simp [execute, hf, ha, hAuth, hr, runE, errClient, opErrorText]
  | get => simp [execute, hf, ha, hAuth, hr, runE, errClient, opErrorText]
  | create => simp [execute, hf, ha, hAuth, hr, runE, errClient, opErrorText]
  | label => simp [execute, hf, ha, hAuth, hr, runE, errClient, opErrorText]
  | delete => simp [execute, hf, ha, hAuth, hr, runE, errClient, opErrorText]
  | regenerateKeys => simp [execute, hf, ha, hAuth, hr, runE, errClient, opErrorText]
  | listClusters => simp [execute, hf, ha, hAuth, hr, runE, errClient, opErrorText]
  | listTiers => simp [execute, hf, ha, hAuth, hr, runE, errClient, opErrorText]

/-- Witness for C3: a failing delete surfaces the wrapped message. -/
theorem remote_error_wrapped_witness :
    (execute (errClient "boom") Subcommand.delete { args := ["abc"] }).out =
      .error (opErrorText Subcommand.delete ++ "boom") :=
  remote_error_wrapped Subcommand.delete { args := ["abc"] } "boom" (by decide)

/-- Claim C4: a label invocation with a positional ID and label flag x sends
an update request whose Label is x and whose ClusterID and TierID keep the
zero value, which the client omits from the wire. -/
theorem label_updates_only_label (client : Client) (inv : Invocation) (x : String)
    (hAuth : inv.hasAuth = true) (hFlags : flagParseError Subcommand.label inv = none)
    (hargs : inv.args ≠ []) (hlab : inv.labelFlag = some x) :
    (execute client Subcommand.label inv).calls =
      [ApiCall.update (inv.args.headD "") { ClusterID := 0, TierID := 0, Label := x }] := by
  cases h : inv.args with
  | nil => exact absurd h hargs
  | cons a t =>
    simp only [execute, hFlags, argsError, h, List.length_cons, runE, hlab,
      Option.isNone_some, Bool.false_eq_true, if_false, hAuth, requiredFlagError,
      Option.getD_some, List.headD_cons, if_true]
    have : ¬ (t.length + 1 < 1) := by omega
    simp only [this, if_false]
    cases client.updateResp a { ClusterID := 0, TierID := 0, Label := x } <;> rfl

/-- Witness for C4: label on a concrete ID. -/
theorem label_updates_only_label_witness :
    (execute okClient Subcommand.label { args := ["id-1"], labelFlag := some "x" }).calls =
      [ApiCall.update "id-1" { ClusterID := 0, TierID := 0, Label := "x" }] :=
  label_updates_only_label okClient { args := ["id-1"], labelFlag := some "x" } "x"
    rfl rfl (by decide) rfl

/-- Claim C5: list-cluster-tiers fails locally with the invalid-cluster-ID
error and issues no remote call when its positional argument does not parse
as an integer, and passes the parsed integer to the remote call when it
does. -/
theorem cluster_tiers_arg_parsing (client : Client) (inv : Invocation) (s : String)
    (rest : List String) (hAuth : inv.hasAuth = true)
    (hFlags : flagParseError Subcommand.listClusterTiers inv = none)
    (hargs : inv.args = s :: rest) :
    (∀ e, atoi s = .error e →
      execute client Subcommand.listClusterTiers inv =
        ⟨.error ("invalid clusterID: " ++ e), []⟩) ∧
    (∀ n, atoi s = .ok n →
      (execute client Subcommand.listClusterTiers inv).calls = [ApiCall.listClusterTiers n]) := by
  constructor
  · intro e he
    simp [execute, hFlags, argsError, hargs, hAuth, requiredFlagError, runE, he]
  · intro n hn
    simp only [execute, hFlags, argsError, hargs, List.length_cons, hAuth, requiredFlagError,
      runE, List.headD_cons, hn]
    have : ¬ (rest.length + 1 < 1) := by omega
    simp only [this, if_false, if_true]
    cases client.listClusterTiersResp n <;> rfl

/-- Witness for C5: "abc" is rejected locally (invalid syntax), a 20-digit
argument is rejected locally (out of the 64-bit range), and "12" is
forwarded as 12. -/
theorem cluster_tiers_arg_parsing_witness :
    (execute okClient Subcommand.listClusterTiers { args := ["abc"] } =
      ⟨.error ("invalid clusterID: strconv.Atoi: parsing \"abc\": invalid syntax"), []⟩) ∧
    (execute okClient Subcommand.listClusterTiers { args := ["99999999999999999999"] } =
      ⟨.error
        ("invalid clusterID: strconv.Atoi: parsing \"99999999999999999999\": value out of range"),
        []⟩) ∧
    (execute okClient Subcommand.listClusterTiers { args := ["12"] }).calls =
      [ApiCall.listClusterTiers 12] := by
  refine ⟨?_, ?_, ?_⟩
  · exact (cluster_tiers_arg_parsing okClient { args := ["abc"] } "abc" [] rfl rfl rfl).1
      "strconv.Atoi: parsing \"abc\": invalid syntax" (by rfl)
  · exact (cluster_tiers_arg_parsing okClient { args := ["99999999999999999999"] }
      "99999999999999999999" [] rfl rfl rfl).1
      "strconv.Atoi: parsing \"99999999999999999999\": value out of range" (by rfl)
  · exact (cluster_tiers_arg_parsing okClient { args := ["12"] } "12" [] rfl rfl rfl).2
      12 (by rfl)

/-- Claim C6: a successful get hands the printer exactly the ObjectStorage
value the remote Get returned, unmodified. -/
theorem get_passes_through (client : Client) (inv : Invocation) (os : ObjectStorage)
    (hAuth : inv.hasAuth = true) (hFlags : flagParseError Subcommand.get inv = none)
    (hargs : inv.args ≠ [])
    (hget : client.getResp (inv.args.headD "") = .ok os) :
    execute client Subcommand.get inv =
      ⟨.ok (.objectStorage os), [ApiCall.get (inv.args.headD "")]⟩ := by
  cases h : inv.args with
  | nil => exact absurd h hargs
  | cons a t =>
    rw [h, List.headD_cons] at hget
    simp [execute, hFlags, argsError, h, hAuth, requiredFlagError, runE, hget]

/-- Witness for C6: get on a concrete ID returns the sample value. -/
theorem get_passes_through_witness :
    execute okClient Subcommand.get { args := ["id-1"] } =
      ⟨.ok (.objectStorage sampleOS), [ApiCall.get "id-1"]⟩ :=
  get_passes_through okClient { args := ["id-1"] } sampleOS rfl rfl (by decide) rfl

/-- Claim C7: an invocation of any subcommand issues exactly one outbound
call when local validation succeeds and zero when it fails — in particular
never more than one, and never a second call after the first returns. -/
theorem at_most_one_remote_call (client : Client) (sub : Subcommand) (inv : Invocation) :
    (execute client sub inv).calls.length = (if localOk sub inv = true then 1 else 0) := by
  cases hf : flagParseError sub inv with
  | some e => simp [execute, localOk, hf]
  | none =>
  cases ha : argsError sub inv.args with
  | some e => simp [execute, localOk, hf, ha]
  | none =>
  cases hAuth : inv.hasAuth with
  | false => simp [execute, localOk, hf, ha, hAuth]
  | true =>
  cases hr : requiredFlagError sub inv with
  | some e => simp [execute, localOk, hf, ha, hAuth, hr]
  | none =>
  cases sub with
  | list =>
    cases h : client.listResp (listOpts inv) <;>
      simp [execute, localOk, hf, ha, hAuth, hr, runE, h]
  | get =>
    cases h : client.getResp (inv.args.head?.getD "") <;>
      simp [execute, localOk, hf, ha, hAuth, hr, runE, List.headD_eq_head?, h]
  | create =>
    cases h : client.createResp
        { ClusterID := inv.clusterIdFlag.getD 0, TierID := inv.tierIdFlag.getD 1,
          Label := inv.labelFlag.getD "" } <;>
      simp [execute, localOk, hf, ha, hAuth, hr, runE, h]
  | label =>
    cases h : client.updateResp (inv.args.head?.getD "")
        { ClusterID := 0, TierID := 0, Label := inv.labelFlag.getD "" } <;>
      simp [execute, localOk, hf, ha, hAuth, hr, runE, List.headD_eq_head?, h]
  | delete =>
    cases h : client.deleteResp (inv.args.head?.getD "") <;>
      simp [execute, localOk, hf, ha, hAuth, hr, runE, List.headD_eq_head?, h]
  | regenerateKeys =>
    cases h : client.regenerateKeysResp (inv.args.head?.getD "") <;>
      simp [execute, localOk, hf, ha, hAuth, hr, runE, List.headD_eq_head?, h]
  | listClusters =>
    cases h : client.listClusterResp emptyOpts <;>
      simp [execute, localOk, hf, ha, hAuth, hr, runE, h]
  | listClusterTiers =>
    cases hA : atoi (inv.args.head?.getD "") with
    | error e =>
      simp [execute, localOk, hf, ha, hAuth, hr, runE, exceptOk, List.headD_eq_head?, hA]
    | ok n =>
      cases h : client.listClusterTiersResp n <;>
        simp [execute, localOk, hf, ha, hAuth, hr, runE, exceptOk, h,
          List.headD_eq_head?, hA]
  | listTiers =>
    cases h : client.listTiersResp <;>
      simp [execute, localOk, hf, ha, hAuth, hr, runE, h]

/-- Counterexample to claim C8 as stated: a per-page value of 600 (greater
than 500) on `list` is accepted — the invocation succeeds and the value is
forwarded unchanged in the remote call; moreover list-clusters does not even
register the per-page flag and rejects it as unknown. -/
theorem per_page_unenforced_cx :
    execute okClient Subcommand.list { args := [], hasAuth := true, perPageFlag := some 600 } =
      ⟨.ok (.objectStorages [sampleOS] sampleMeta),
        [ApiCall.list { Cursor := "", PerPage := 600 }]⟩ ∧
    execute okClient Subcommand.listClusters
        { args := [], hasAuth := true, perPageFlag := some 10 } =
      ⟨.error "unknown flag: --per-page", []⟩ :=
  ⟨rfl, rfl⟩

/-- Claim C8 as amended: only `list` registers the per-page integer flag; its
500 maximum appears only in the help text and is not validated locally — any
per-page value is accepted and forwarded unchanged in the remote list call —
while list-clusters and list-tiers reject the flag as unknown. -/
theorem per_page_forwarded_unbounded (client : Client) (inv : Invocation) (p : Int)
    (hAuth : inv.hasAuth = true) (hFlags : flagParseError Subcommand.list inv = none)
    (hp : inv.perPageFlag = some p) :
    (execute client Subcommand.list inv).calls =
      [ApiCall.list { Cursor := inv.cursorFlag.getD "", PerPage := p }] ∧
    (∀ sub, (sub = Subcommand.listClusters ∨ sub = Subcommand.listTiers) →
      ∀ inv2 : Invocation, inv2.cursorFlag = none → inv2.perPageFlag = some p →
        inv2.labelFlag = none → inv2.clusterIdFlag = none → inv2.tierIdFlag = none →
        execute client sub inv2 = ⟨.error "unknown flag: --per-page", []⟩) := by
  constructor
  · simp only [execute, hFlags, argsError, hAuth, requiredFlagError, if_true, runE,
      listOpts, hp, Option.getD_some]
    cases client.listResp { Cursor := inv.cursorFlag.getD "", PerPage := p } <;> rfl
  · rintro sub (rfl | rfl) inv2 h1 h2 h3 h4 h5 <;>
      simp [execute, flagParseError, provided, h1, h2, h3, h4, h5, flagSupported, flagText]

/-- Witness for the amended C8 at per-page 600. -/
theorem per_page_forwarded_unbounded_witness :
    (execute okClient Subcommand.list
        { args := [], hasAuth := true, perPageFlag := some 600 }).calls =
      [ApiCall.list { Cursor := "", PerPage := 600 }] ∧
    execute okClient Subcommand.listTiers
        { args := [], hasAuth := true, perPageFlag := some 600 } =
      ⟨.error "unknown flag: --per-page", []⟩ := by
  have h := per_page_forwarded_unbounded okClient
    { args := [], hasAuth := true, perPageFlag := some 600 } 600 rfl rfl rfl
  exact ⟨h.1, h.2 Subcommand.listTiers (Or.inr rfl)
    { args := [], hasAuth := true, perPageFlag := some 600 } rfl rfl rfl rfl rfl⟩

/-- Counterexample to claim C9 as stated: an unauthenticated `get` with no
arguments fails with the missing-ID message, not the API-key error, because
cobra runs the Args validator before PersistentPreRunE. -/
theorem auth_not_first_cx :
    execute okClient Subcommand.get { args := [], hasAuth := false } =
      ⟨.error "please provide an object storage ID", []⟩ ∧
    "please provide an object storage ID" ≠ APIKeyError :=
  ⟨rfl, by decide⟩

/-- Claim C9 as amended: with no authentication, every subcommand fails with
the fixed API-key error and issues no remote call, provided flag parsing and
the positional-argument validator pass — those two checks run before the
authentication check and their errors take precedence. -/
theorem no_auth_blocks_remote (client : Client) (sub : Subcommand) (inv : Invocation)
    (hAuth : inv.hasAuth = false) (hFlags : flagParseError sub inv = none)
    (hArgs : argsError sub inv.args = none) :
    execute client sub inv = ⟨.error APIKeyError, []⟩ := by
  simp [execute, hFlags, hArgs, hAuth]

/-- Witness for the amended C9: unauthenticated delete with an ID. -/
theorem no_auth_blocks_remote_witness :
    execute okClient Subcommand.delete { args := ["id-1"], hasAuth := false } =
      ⟨.error APIKeyError, []⟩ :=
  no_auth_blocks_remote okClient Subcommand.delete { args := ["id-1"], hasAuth := false }
    rfl rfl rfl

/-- Claim C10: the five subcommands that require one positional ID accept
extra positional arguments; the extras are ignored and the whole execution —
including the remote call — is the one obtained from the first argument
alone. -/
theorem extra_args_ignored (client : Client) (sub : Subcommand) (inv : Invocation)
    (hSub : sub = Subcommand.get ∨ sub = Subcommand.label ∨ sub = Subcommand.delete ∨
      sub = Subcommand.regenerateKeys ∨ sub = Subcommand.listClusterTiers)
    (id : String) (rest : List String) :
    argsError sub (id :: rest) = none ∧
    execute client sub { inv with args := id :: rest } =
      execute client sub { inv with args := [id] } := by
  obtain rfl | rfl | rfl | rfl | rfl := hSub <;>
    refine ⟨rfl, ?_⟩ <;>
    simp [execute, flagParseError, provided, argsError, requiredFlagError, runE]

/-- Witness for C10: get with a second, ignored argument. -/
theorem extra_args_ignored_witness :
    argsError Subcommand.get ["a", "b"] = none ∧
    execute okClient Subcommand.get { args := ["a", "b"] } =
      execute okClient Subcommand.get { args := ["a"] } :=
  extra_args_ignored okClient Subcommand.get { args := ["a", "b"] } (Or.inl rfl) "a" ["b"]

end VultrOS
